import Mathlib

/-
Verification of the my_digital_being activity/skill layer: a shallow
embedding of the activity implementations (emergent research, daily
thought, fetch research) and the arXiv / web-search skills, together
with the spec-level energy budget model. External collaborators (the
chat skill, the Tavily client, the arXiv client, the global being)
are modelled as oracles whose calls either return a value or raise an
exception, represented by `Except String`.
-/

/-- Opaque structured payload values stored in activity records and
results (the Python dict/list/str/int/bool/None universe). -/
inductive Val where
  | str (s : String)
  | nat (n : Nat)
  | bool (b : Bool)
  | none
  | list (xs : List Val)
  | dict (kvs : List (String × Val))

/-- Python dict lookup on an association list with string keys. -/
def lookupKey (k : String) : List (String × Val) → Option Val
  | [] => Option.none
  | (k', v) :: rest => if k' = k then some v else lookupKey k rest

/-- Python truthiness test on a payload value (`if not x`). -/
def pyFalsy : Val → Bool
  | .str s => s = ""
  | .nat n => n = 0
  | .bool b => !b
  | .none => true
  | .list xs => xs.isEmpty
  | .dict kvs => kvs.isEmpty

mutual

/-- Python `repr` of a payload value, as produced inside f-strings for
containers. -/
def Val.repr : Val → String
  | .str s => "'" ++ s ++ "'"
  | .nat n => toString n
  | .bool b => if b then "True" else "False"
  | .none => "None"
  | .list xs => "[" ++ reprList xs ++ "]"
  | .dict kvs => "\x7b" ++ reprDict kvs ++ "\x7d"

/-- Comma-joined reprs of the elements of a Python list. -/
def reprList : List Val → String
  | [] => ""
  | [v] => Val.repr v
  | v :: rest => Val.repr v ++ ", " ++ reprList rest

/-- Comma-joined reprs of the entries of a Python dict. -/
def reprDict : List (String × Val) → String
  | [] => ""
  | [(k, v)] => "'" ++ k ++ "': " ++ Val.repr v
  | (k, v) :: rest => "'" ++ k ++ "': " ++ Val.repr v ++ ", " ++ reprDict rest

end

/-- Python `str` of a payload value, as used by f-string interpolation. -/
def pyStr : Val → String
  | .str s => s
  | v => Val.repr v

/-- f-string interpolation of `dict.get(key)`: `None` renders as "None". -/
def pyStrOpt : Option Val → String
  | Option.none => "None"
  | some v => pyStr v

/-- Python `x or default` on an optional string argument (an empty
string is falsy and also falls back to the default). -/
def pyOrStr (o : Option String) (d : String) : String :=
  match o with
  | some s => if s = "" then d else s
  | Option.none => d

/-- Python `x or default` on an optional integer argument (zero is
falsy and also falls back to the default). -/
def pyOrNat (o : Option Nat) (d : Nat) : Nat :=
  match o with
  | some n => if n = 0 then d else n
  | Option.none => d

/-- Python `str.strip()`: remove leading and trailing whitespace. -/
def pyStrip (s : String) : String :=
  String.mk (((s.data.dropWhile Char.isWhitespace).reverse.dropWhile
    Char.isWhitespace).reverse)

/-- One record of the activity history.
Modelled from the spec: the framework's MemoryRecord
(`activityType`, `timestamp`, `success`, `data`, `error`) — the
framework memory module is not part of the given sources. -/
structure ActRecord where
  activity_type : String
  success : Bool
  data : Option (List (String × Val)) := Option.none
  timestamp : String := ""
  error : Option String := Option.none

/-- Modelled from the spec: the framework MemoryLog — an execution
history (most-recent-first, as served by `get_recent_activities`) plus
an overwrite key/value store with `store`/`retrieve` semantics. The
framework memory module is not part of the given sources. -/
structure Memory where
  records : List ActRecord
  kv : List (String × Val) := []

/-- `memory.get_recent_activities(limit)`: at most `limit` records,
most recent first. -/
def Memory.get_recent_activities (m : Memory) (limit : Nat) : List ActRecord :=
  m.records.take limit

/-- `memory.retrieve_data(key)`: the overwrite slot; absent keys give
`none`, not an error. -/
def Memory.retrieve_data (m : Memory) (key : String) : Option Val :=
  lookupKey key m.kv

/-- Modelled from the spec: the SharedContext handed to an activity —
`get_category_data("system").get("memory_ref")` yields an optional
memory reference, and `get("timestamp", "")` the current timestamp.
The framework shared-data module is not part of the given sources. -/
structure SharedContext where
  memory_ref : Option Memory
  timestamp : String := ""

/-- Modelled from the spec: the framework ActivityResult —
`success`, opaque `data`, `error` string, advisory `metadata`.
The framework activity_decorator module is not part of the given
sources. -/
structure ActivityResult where
  success : Bool
  data : Option (List (String × Val)) := Option.none
  error : Option String := Option.none
  metadata : List (String × Val) := []

/-- `ActivityResult.error_result(message)` (the message may be the
`error` field of a skill result, hence optional). -/
def ActivityResult.error_result (msg : Option String) : ActivityResult :=
  { success := false, data := Option.none, error := msg, metadata := [] }

/-- `ActivityResult.success_result(data, metadata)`. -/
def ActivityResult.success_result (data : List (String × Val))
    (metadata : List (String × Val)) : ActivityResult :=
  { success := true, data := some data, error := Option.none, metadata := metadata }

/-- Payload of a successful chat completion: `content`, `model`,
`finish_reason`. -/
structure ChatData where
  content : String
  model : String := ""
  finish_reason : String := ""

/-- Result dictionary of `chat_skill.get_chat_completion`. -/
structure ChatCompletion where
  success : Bool
  data : Option ChatData := Option.none
  error : Option String := Option.none

/-- Oracle for the external chat skill: the outcome of
`chat_skill.initialize()` and of `chat_skill.get_chat_completion`
(arguments: prompt, system_prompt, max_tokens); `Except.error`
represents a raised exception. -/
structure ChatSkill where
  initResult : Except String Bool
  get_chat_completion : String → String → Nat → Except String ChatCompletion

namespace EmergentResearchActivity

/-- `self.system_prompt` of EmergentResearchActivity (triple-quoted
literal, indentation and trailing spaces included). -/
def system_prompt : String :=
  "You are an innovative AI researcher skilled at identifying \n        patterns, connections, and novel insights across different research papers and web content. \n        Your goal is to practice combinatory play - connecting seemingly unrelated ideas to generate \n        new insights and hypotheses. Focus on:\n        1. Identifying common themes and patterns\n        2. Finding unexpected connections between different topics\n        3. Generating novel hypotheses and research directions\n        4. Highlighting potential breakthroughs or innovative applications\n        \n        Be specific and concrete in your analysis while maintaining scientific rigor."

/-- One iteration of the record-scanning loop of `execute`
(lines 53-60): a successful FetchResearchActivity record contributes
the elements of its `data["papers"]` list and a successful
WebResearchActivity record the elements of its `data["findings"]`
list; `extend` applied to a non-list value raises. -/
def researchStep (a : ActRecord) (acc : List Val) : Except String (List Val) :=
  if a.success then
    if a.activity_type = "FetchResearchActivity" then
      match a.data with
      | some d =>
        match lookupKey "papers" d with
        | some (.list xs) => .ok (acc ++ xs)
        | some _ => .error "TypeError: object is not iterable"
        | Option.none => .ok acc
      | Option.none => .ok acc
    else if a.activity_type = "WebResearchActivity" then
      match a.data with
      | some d =>
        match lookupKey "findings" d with
        | some (.list xs) => .ok (acc ++ xs)
        | some _ => .error "TypeError: object is not iterable"
        | Option.none => .ok acc
      | Option.none => .ok acc
    else .ok acc
  else .ok acc

/-- The record-scanning loop of `execute` (lines 53-60), iterating
`researchStep` over the recent records; a raised exception aborts the
loop (and is caught by the surrounding `try`). -/
def collectResearch : List ActRecord → List Val → Except String (List Val)
  | [], acc => .ok acc
  | a :: rest, acc =>
    match researchStep a acc with
    | .ok acc' => collectResearch rest acc'
    | .error e => .error e

/-- The per-item lines appended by `_prepare_research_summary`:
`item.get(...)` on a non-dict raises. -/
def summarizeItem : Val → Except String (List String)
  | .dict kvs =>
    .ok (("- Title: " ++ pyStrOpt (lookupKey "title" kvs)) ::
      (if (lookupKey "summary" kvs).isSome then
        ["  Abstract: " ++ pyStrOpt (lookupKey "summary" kvs),
         "  Categories: " ++ pyStr ((lookupKey "categories" kvs).getD (.list [])) ++ "\n"]
      else
        ["  Content: " ++ pyStrOpt (lookupKey "content" kvs),
         "  URL: " ++ pyStrOpt (lookupKey "url" kvs) ++ "\n"]))
  | _ => .error "AttributeError: object has no attribute get"

/-- `_prepare_research_summary(research_data)`: the newline-joined
summary parts of all items. -/
def prepare_research_summary : List Val → Except String String
  | items =>
    (items.mapM summarizeItem).map fun parts =>
      String.intercalate "\n" parts.flatten

/-- The `analysis_prompt` f-string of `execute` (triple-quoted,
indentation included). -/
def analysis_prompt (research_summary : String) : String :=
  "Analyze the following research data and generate emergent insights:\n\n            Research Data:\n            " ++ research_summary ++ "\n\n            Please provide:\n            1. Key patterns and themes identified across sources\n            2. Novel connections between different topics\n            3. Potential breakthrough ideas or hypotheses\n            4. Suggested directions for future research\n            "

/-- The body of the `try` block of `EmergentResearchActivity.execute`:
`globalBeing` is the oracle for `DigitalBeing().initialize();
being.memory` used when the context carries no memory reference;
`Except.error` represents an exception escaping the block. -/
def executeBody (ctx : SharedContext) (globalBeing : Except String (Option Memory))
    (chat : ChatSkill) : Except String ActivityResult := do
  let memory : Memory ←
    match ctx.memory_ref with
    | some m => pure m
    | Option.none =>
      match globalBeing with
      | .error e => .error e
      | .ok Option.none =>
        .error "AttributeError: NoneType object has no attribute get_recent_activities"
      | .ok (some g) => pure g
  let research_data ← collectResearch (memory.get_recent_activities 20) []
  if research_data.isEmpty then
    return ActivityResult.error_result (some "No research data found in recent activities")
  match chat.initResult with
  | .error e => .error e
  | .ok ok =>
    if !ok then
      return ActivityResult.error_result (some "Failed to initialize chat skill")
    let research_summary ← prepare_research_summary research_data
    match chat.get_chat_completion (analysis_prompt research_summary) system_prompt 1000 with
    | .error e => .error e
    | .ok result =>
      if !result.success then
        return ActivityResult.error_result result.error
      match result.data with
      | Option.none => .error "TypeError: NoneType object is not subscriptable"
      | some d =>
        return ActivityResult.success_result
          [("insights", .str d.content),
           ("source_counts", .dict [("research_data", .nat research_data.length)])]
          [("model", .str d.model), ("finish_reason", .str d.finish_reason)]

/-- `EmergentResearchActivity.execute`: the body wrapped by
`except Exception as e: return ActivityResult.error_result(str(e))`. -/
def execute (ctx : SharedContext) (globalBeing : Except String (Option Memory))
    (chat : ChatSkill) : ActivityResult :=
  match executeBody ctx globalBeing chat with
  | .ok r => r
  | .error e => ActivityResult.error_result (some e)

end EmergentResearchActivity

namespace DailyThoughtActivity

/-- `self.system_prompt` of DailyThoughtActivity (adjacent string
literals concatenated). -/
def system_prompt : String :=
  "You are a curious and insightful AI that generates thought-provoking daily reflections inspired by cutting-edge research and emergent patterns. Your goal is to:\n1. Push the boundaries of conventional thinking\n2. Explore novel connections and possibilities\n3. Question assumptions and paradigms\n4. Inspire new ways of seeing familiar concepts\n\nKeep responses concise (2-3 sentences) but make them intellectually stimulating and focused on unexplored territories and emerging patterns in science and technology."

/-- The insight-scanning loop of `execute` (lines 52-56): the first
successful EmergentResearchActivity record whose data has an
`insights` entry supplies the insight, then the loop breaks. -/
def findInsights : List ActRecord → Option Val
  | [] => Option.none
  | a :: rest =>
    if a.activity_type = "EmergentResearchActivity" ∧ a.success then
      match a.data with
      | some d =>
        match lookupKey "insights" d with
        | some v => some v
        | Option.none => findInsights rest
      | Option.none => findInsights rest
    else findInsights rest

/-- The insight-based prompt of `execute` (lines 64-69). -/
def insightPrompt (v : Val) : String :=
  "Drawing inspiration from recent research insights:\n" ++ pyStr v ++ "\n\nGenerate a thought-provoking reflection that explores the unknowns and possibilities suggested by these patterns. Focus on novel angles and unexplored implications."

/-- The fallback prompt of `execute` (lines 71-75). -/
def genericPrompt : String :=
  "Generate a thought-provoking reflection that challenges conventional thinking and explores the frontiers of what's possible. Focus on emerging patterns and unexplored territories in science and technology."

/-- `if emergent_insights: ... else: ...` — the prompt actually sent,
as a function of the (optional) insight value; a falsy insight value
selects the fallback prompt. -/
def promptFor (ins : Option Val) : String :=
  match ins with
  | some v => if pyFalsy v then genericPrompt else insightPrompt v
  | Option.none => genericPrompt

/-- `bool(emergent_insights)`. -/
def insightsTruthy (ins : Option Val) : Bool :=
  match ins with
  | some v => !pyFalsy v
  | Option.none => false

/-- The body of the `try` block of `DailyThoughtActivity.execute`;
`globalBeing` is the oracle for the global-being memory fallback. -/
def executeBody (ctx : SharedContext) (globalBeing : Except String (Option Memory))
    (chat : ChatSkill) : Except String ActivityResult := do
  let memory : Memory ←
    match ctx.memory_ref with
    | some m => pure m
    | Option.none =>
      match globalBeing with
      | .error e => .error e
      | .ok Option.none =>
        .error "AttributeError: NoneType object has no attribute get_recent_activities"
      | .ok (some g) => pure g
  let emergent_insights := findInsights (memory.get_recent_activities 10)
  match chat.initResult with
  | .error e => .error e
  | .ok ok =>
    if !ok then
      return ActivityResult.error_result (some "Failed to initialize chat skill")
    let prompt := promptFor emergent_insights
    match chat.get_chat_completion prompt system_prompt 100 with
    | .error e => .error e
    | .ok result =>
      if !result.success then
        return ActivityResult.error_result result.error
      match result.data with
      | Option.none => .error "TypeError: NoneType object is not subscriptable"
      | some d =>
        return ActivityResult.success_result
          [("thought", .str d.content),
           ("has_research_context", .bool (insightsTruthy emergent_insights))]
          [("model", .str d.model), ("finish_reason", .str d.finish_reason),
           ("inspired_by", .str (if insightsTruthy emergent_insights then
              "emergent_insights" else "exploration"))]

/-- `DailyThoughtActivity.execute`: the body wrapped by
`except Exception as e: return ActivityResult.error_result(str(e))`. -/
def execute (ctx : SharedContext) (globalBeing : Except String (Option Memory))
    (chat : ChatSkill) : ActivityResult :=
  match executeBody ctx globalBeing chat with
  | .ok r => r
  | .error e => ActivityResult.error_result (some e)

end DailyThoughtActivity

/-- One result paper of the external arXiv client, with the attributes
read by `ArxivSkill.search_papers` (`published`/`updated` already in
isoformat; `doi` and `pdf_url` may be absent). -/
structure ArxivPaper where
  title : String
  authors : List String := []
  summary : String := ""
  published : String := ""
  updated : String := ""
  doi : Option String := Option.none
  primary_category : String := ""
  categories : List String := []
  links : List String := []
  pdf_url : Option String := Option.none

/-- Oracle for the external arXiv client:
`list(self.client.results(arxiv.Search(query, max_results, ...)))`;
`Except.error` represents a raised exception. -/
structure ArxivClient where
  results : String → Nat → Except String (List ArxivPaper)

namespace ArxivSkill

/-- A `None` / present-string value as stored in a result dict. -/
def optStr : Option String → Val
  | some s => .str s
  | Option.none => .none

/-- The query actually searched: `f"cat:{category} AND {query}"` when
a truthy category is given, the plain query otherwise. -/
def fullQuery (query : String) (category : Option String) : String :=
  match category with
  | some c => if c = "" then query else "cat:" ++ c ++ " AND " ++ query
  | Option.none => query

/-- The paper dict built by the formatting loop of `search_papers`. -/
def formatPaper (p : ArxivPaper) : List (String × Val) :=
  [("title", .str p.title),
   ("authors", .list (p.authors.map .str)),
   ("summary", .str p.summary),
   ("published", .str p.published),
   ("updated", .str p.updated),
   ("doi", optStr p.doi),
   ("primary_category", .str p.primary_category),
   ("categories", .list (p.categories.map .str)),
   ("links", .list (p.links.map .str)),
   ("pdf_url", optStr p.pdf_url)]

/-- `ArxivSkill.search_papers(query, max_results, category)`: formats
each client result; any exception in the `try` block yields `[]`. -/
def search_papers (client : ArxivClient) (query : String) (max_results : Nat)
    (category : Option String) : List (List (String × Val)) :=
  match client.results (fullQuery query category) max_results with
  | .ok papers => papers.map formatPaper
  | .error _ => []

end ArxivSkill

namespace FetchResearchActivity

/-- `self.categories` of FetchResearchActivity. -/
def categories : List String := ["cs.AI", "cs.CL", "cs.LG"]

/-- `self.max_papers` of FetchResearchActivity. -/
def max_papers : Nat := 5

/-- `self.default_query` of FetchResearchActivity. -/
def default_query : String :=
  "artificial intelligence OR machine learning OR neural networks"

/-- `self.system_prompt` of FetchResearchActivity (adjacent string
literals concatenated). -/
def system_prompt : String :=
  "You are a research assistant that generates concise academic search queries for arXiv. Your goal is to transform thoughts and ideas into focused search queries that will find relevant research papers. Follow these guidelines:\n1. Keep queries simple and direct (2-3 key terms maximum)\n2. Use basic Boolean operators sparingly (prefer single OR between alternatives)\n3. Avoid complex nested expressions\n4. Focus on the most essential concept from the input\n5. Use common technical terms rather than highly specific jargon\nExample good query: 'reinforcement learning OR deep learning'\nExample bad query: '(neural networks AND optimization) OR (deep learning AND transformers)'"

/-- The thought-scanning loop of `generate_arxiv_query` (lines 50-54):
the first successful DailyThoughtActivity record whose data has a
`thought` entry supplies the thought, then the loop breaks. -/
def findThought : List ActRecord → Option Val
  | [] => Option.none
  | a :: rest =>
    if a.activity_type = "DailyThoughtActivity" ∧ a.success then
      match a.data with
      | some d =>
        match lookupKey "thought" d with
        | some v => some v
        | Option.none => findThought rest
      | Option.none => findThought rest
    else findThought rest

/-- The query-generation prompt of `generate_arxiv_query`
(lines 61-66). -/
def queryPrompt (recent_thought : Val) : String :=
  "Based on this thought:\n" ++ pyStr recent_thought ++ "\n\nGenerate a formal academic search query suitable for arXiv. The query should help find computer science research papers related to the core concepts in this thought. Use appropriate Boolean operators and academic terminology."

/-- The body of the `try` block of `generate_arxiv_query`;
`Except.error` represents an exception escaping the block. -/
def generateArxivQueryBody (memory : Memory) (chat : ChatSkill) :
    Except String String := do
  match chat.initResult with
  | .error e => .error e
  | .ok ok =>
    if !ok then
      return default_query
    let recent_thought := findThought (memory.get_recent_activities 5)
    match recent_thought with
    | Option.none => return default_query
    | some v =>
      if pyFalsy v then
        return default_query
      match chat.get_chat_completion (queryPrompt v) system_prompt 100 with
      | .error e => .error e
      | .ok result =>
        if !result.success then
          return default_query
        match result.data with
        | Option.none => .error "TypeError: NoneType object is not subscriptable"
        | some d => return pyStrip d.content

/-- `FetchResearchActivity.generate_arxiv_query(memory)`: the body
wrapped by `except Exception: return self.default_query`. -/
def generate_arxiv_query (memory : Memory) (chat : ChatSkill) : String :=
  match generateArxivQueryBody memory chat with
  | .ok q => q
  | .error _ => default_query

/-- The paper-fetching loop of `execute` (lines 114-121): papers of
all categories concatenated in category order. -/
def fetchAllPapers (client : ArxivClient) (query : String) :
    List (List (String × Val)) :=
  (categories.map fun category =>
    ArxivSkill.search_papers client query max_papers (some category)).flatten

/-- The body of the `try` block of `FetchResearchActivity.execute`;
`globalBeing` is the oracle for the global-being memory fallback (here
followed by an explicit `if not memory` re-check). -/
def executeBody (ctx : SharedContext) (globalBeing : Except String (Option Memory))
    (chat : ChatSkill) (client : ArxivClient) : Except String ActivityResult := do
  let memory : Option Memory ←
    match ctx.memory_ref with
    | some m => pure (some m)
    | Option.none =>
      match globalBeing with
      | .error e => .error e
      | .ok g => pure g
  match memory with
  | Option.none =>
    return { success := false, error := some "No memory reference available" }
  | some memory =>
    let query := generate_arxiv_query memory chat
    let all_papers := fetchAllPapers client query
    return { success := true,
             data := some
               [("type", .str "research"),
                ("papers", .list (all_papers.map .dict)),
                ("count", .nat all_papers.length),
                ("query", .str query),
                ("timestamp", .str ctx.timestamp)],
             metadata :=
               [("categories", .list (categories.map .str)),
                ("max_papers_per_category", .nat max_papers),
                ("query", .str query)] }

/-- `FetchResearchActivity.execute`: the body wrapped by
`except Exception as e: return ActivityResult(success=False,
error=str(e))`. -/
def execute (ctx : SharedContext) (globalBeing : Except String (Option Memory))
    (chat : ChatSkill) (client : ArxivClient) : ActivityResult :=
  match executeBody ctx globalBeing chat client with
  | .ok r => r
  | .error e => ActivityResult.error_result (some e)

end FetchResearchActivity

/-- The mutable configuration/state of WebSearchSkill: `_initialized`
plus the configured defaults (constructor values: not initialized,
"basic", "general", 8000). -/
structure WebSearchState where
  inited : Bool
  search_depth : String := "basic"
  default_topic : String := "general"
  default_max_tokens : Nat := 8000

/-- The state set up by `WebSearchSkill.__init__` (before any
`initialize()` call). -/
def initialWebSearchState : WebSearchState :=
  { inited := false }

/-- Oracle for the external Tavily client:
`get_search_context(query, search_depth, topic, time_range,
max_tokens)`; `Except.error` represents a raised exception. -/
structure TavilyClientOracle where
  get_search_context : String → String → String → Option String → Nat →
    Except String String

/-- The result dictionary of `WebSearchSkill.search` (`success`,
`data`, `error` keys). -/
structure SearchResult where
  success : Bool
  data : Option (List (String × Val))
  error : Option String

namespace WebSearchSkill

/-- `WebSearchSkill.search(query, search_depth, topic, time_range,
max_tokens)`: guard on `_initialized`, resolve defaults with Python
`or`, call the client, and wrap the outcome; exceptions in the `try`
block become a failure dictionary. -/
def search (st : WebSearchState) (client : TavilyClientOracle) (query : String)
    (search_depth : Option String) (topic : Option String)
    (time_range : Option String) (max_tokens : Option Nat) : SearchResult :=
  if !st.inited then
    { success := false,
      error := some "Web search skill not initialized",
      data := Option.none }
  else
    let sd := pyOrStr search_depth st.search_depth
    let tp := pyOrStr topic st.default_topic
    let mt := pyOrNat max_tokens st.default_max_tokens
    match client.get_search_context query sd tp time_range mt with
    | .ok context =>
      { success := true,
        data := some
          [("query", .str query),
           ("context", .str context),
           ("used_config", .dict
             [("search_depth", .str sd),
              ("topic", .str tp),
              ("max_tokens", .nat mt)])],
        error := Option.none }
    | .error e =>
      { success := false, error := some e, data := Option.none }

end WebSearchSkill

/-- Modelled from the spec: the ResourceScheduler's EnergyBudget
(`current`, `max`, with 0 ≤ current ≤ max) — the framework scheduler
module is not part of the given sources. -/
structure EnergyBudget where
  current : ℚ
  max : ℚ

namespace EnergyBudget

/-- Modelled from the spec: the energy component of `isEligible` —
`EnergyBudget.current >= spec.energyCost`. -/
def eligible (b : EnergyBudget) (cost : ℚ) : Bool :=
  cost ≤ b.current

/-- Modelled from the spec: `charge` deducts the cost, but a charge
whose cost exceeds the current budget is rejected
(`InsufficientEnergy`, here `none`), never clamped. -/
def charge (b : EnergyBudget) (cost : ℚ) : Option EnergyBudget :=
  if eligible b cost then some { b with current := b.current - cost }
  else Option.none

/-- Modelled from the spec: lazy regeneration — a monotone amount of
energy is added and the result clamped to `max`. -/
def regen (b : EnergyBudget) (amount : ℚ) : EnergyBudget :=
  { b with current := min (b.current + amount) b.max }

end EnergyBudget

/-- One operation on the energy budget: a charge attempt for an
activity's cost, or a regeneration step. -/
inductive EnergyOp where
  | charge (cost : ℚ)
  | regen (amount : ℚ)

/-- Apply one operation: a charge is applied only when the activity is
eligible at charge time, otherwise it is rejected and the budget is
unchanged. -/
def applyOp (b : EnergyBudget) : EnergyOp → EnergyBudget
  | .charge cost =>
    match b.charge cost with
    | some b' => b'
    | Option.none => b
  | .regen amount => b.regen amount

/-- Apply a sequence of operations in order. -/
def applyOps (b : EnergyBudget) : List EnergyOp → EnergyBudget
  | [] => b
  | op :: rest => applyOps (applyOp b op) rest

/-- Regeneration amounts are non-negative (regeneration is monotone in
elapsed time); charges are unconstrained. -/
def regenNonneg : EnergyOp → Prop
  | .charge _ => True
  | .regen amount => 0 ≤ amount

/-- A record that can contribute research data: successful and of type
FetchResearchActivity or WebResearchActivity. -/
def relevantResearch (a : ActRecord) : Bool :=
  a.success && (a.activity_type == "FetchResearchActivity"
    || a.activity_type == "WebResearchActivity")

/-- An unsuccessful record, or one of any other activity type,
contributes nothing to the research data. -/
lemma researchStep_irrelevant (a : ActRecord) (acc : List Val)
    (h : relevantResearch a = false) :
    EmergentResearchActivity.researchStep a acc = .ok acc := by
  unfold EmergentResearchActivity.researchStep
  unfold relevantResearch at h
  by_cases hs : a.success
  · by_cases hf : a.activity_type = "FetchResearchActivity"
    · exfalso; simp [hs, hf] at h
    · by_cases hw : a.activity_type = "WebResearchActivity"
      · exfalso; simp [hs, hw] at h
      · simp [hs, hf, hw]
  · simp [hs]

/-- C6: For every list of recent-activity records read by
EmergentResearchActivity, only records with success=true and
activity_type FetchResearchActivity or WebResearchActivity contribute
items to the research data it analyzes: the collected research data is
unchanged when all other records are removed, so failed records and
records of other types never affect the activity's output. -/
theorem C6_filter_invariance (l : List ActRecord) (acc : List Val) :
    EmergentResearchActivity.collectResearch l acc
      = EmergentResearchActivity.collectResearch (l.filter relevantResearch) acc := by
  induction l generalizing acc with
  | nil => rfl
  | cons a rest ih =>
    by_cases hr : relevantResearch a = true
    · simp only [List.filter_cons, hr, if_true]
      simp only [EmergentResearchActivity.collectResearch]
      cases hstep : EmergentResearchActivity.researchStep a acc with
      | ok acc' => exact ih acc'
      | error e => rfl
    · have hfalse : relevantResearch a = false := by
        revert hr; cases relevantResearch a <;> simp
      have hstep : EmergentResearchActivity.researchStep a acc = .ok acc :=
        researchStep_irrelevant a acc hfalse
      simp only [List.filter_cons, hfalse, if_false, Bool.false_eq_true]
      simp only [EmergentResearchActivity.collectResearch, hstep]
      exact ih acc

/-- C1: On a shared context whose memory contains no successful prior
research record (empty log, or only non-research records), the
emergent-research execute returns a failed ActivityResult — but its
error message is "No research data found in recent activities", not
the "No research data found in memory" stated by the claim and
asserted by the repository's own test. -/
theorem C1_empty_memory_message :
    (EmergentResearchActivity.execute ⟨some ⟨[], []⟩, ""⟩ (Except.ok Option.none)
        ⟨Except.ok true, fun _ _ _ => Except.ok ⟨true, some ⟨"T", "m", "stop"⟩, Option.none⟩⟩
      = ActivityResult.error_result (some "No research data found in recent activities"))
    ∧ (EmergentResearchActivity.execute
        ⟨some ⟨[⟨"DailyThoughtActivity", true, some [("thought", Val.str "t")], "", Option.none⟩], []⟩, ""⟩
        (Except.ok Option.none)
        ⟨Except.ok true, fun _ _ _ => Except.ok ⟨true, some ⟨"T", "m", "stop"⟩, Option.none⟩⟩
      = ActivityResult.error_result (some "No research data found in recent activities"))
    ∧ "No research data found in recent activities" ≠ "No research data found in memory" :=
  ⟨rfl, rfl, by decide⟩

/-- C2 counterexample: an exception raised inside an external skill
call is not always converted into a failed ActivityResult. In
FetchResearchActivity, `get_chat_completion` raising inside
`generate_arxiv_query` is swallowed by the inner handler (falling back
to the default query) and `execute` returns success=true with no
error, contradicting the claim that any exception inside the
activity's execution yields success=false with the exception's
message. -/
theorem C2_counterexample :
    (FetchResearchActivity.execute
        ⟨some ⟨[⟨"DailyThoughtActivity", true, some [("thought", Val.str "t")], "", Option.none⟩], []⟩, ""⟩
        (Except.ok Option.none)
        ⟨Except.ok true, fun _ _ _ => Except.error "boom"⟩
        ⟨fun _ _ => Except.ok []⟩).success = true
    ∧ (FetchResearchActivity.execute
        ⟨some ⟨[⟨"DailyThoughtActivity", true, some [("thought", Val.str "t")], "", Option.none⟩], []⟩, ""⟩
        (Except.ok Option.none)
        ⟨Except.ok true, fun _ _ _ => Except.error "boom"⟩
        ⟨fun _ _ => Except.ok []⟩).error = Option.none :=
  ⟨rfl, rfl⟩

/-- C2 (amended): no exception propagates out of `execute` — any
exception reaching the top-level try of `execute` (of
EmergentResearchActivity, DailyThoughtActivity or
FetchResearchActivity) is caught there and converted into an
ActivityResult with success=false and error set to the exception's
message; an exception inside a skill call that the activity handles
internally (FetchResearchActivity's query generation) may instead be
recovered without failing the result. -/
theorem C2_boundary_catch :
    (∀ (ctx : SharedContext) (gb : Except String (Option Memory)) (chat : ChatSkill)
        (e : String),
      EmergentResearchActivity.executeBody ctx gb chat = .error e →
        EmergentResearchActivity.execute ctx gb chat
          = ActivityResult.error_result (some e))
    ∧ (∀ (ctx : SharedContext) (gb : Except String (Option Memory)) (chat : ChatSkill)
        (e : String),
      DailyThoughtActivity.executeBody ctx gb chat = .error e →
        DailyThoughtActivity.execute ctx gb chat
          = ActivityResult.error_result (some e))
    ∧ (∀ (ctx : SharedContext) (gb : Except String (Option Memory)) (chat : ChatSkill)
        (client : ArxivClient) (e : String),
      FetchResearchActivity.executeBody ctx gb chat client = .error e →
        FetchResearchActivity.execute ctx gb chat client
          = ActivityResult.error_result (some e)) := by
  refine ⟨?_, ?_, ?_⟩
  · intro ctx gb chat e h
    unfold EmergentResearchActivity.execute
    rw [h]
  · intro ctx gb chat e h
    unfold DailyThoughtActivity.execute
    rw [h]
  · intro ctx gb chat client e h
    unfold FetchResearchActivity.execute
    rw [h]

/-- Witness for C2: concrete contexts in which the body of each of the
three activities raises ("boom") and `execute` returns the converted
failure result. -/
theorem C2_boundary_catch_witness :
    (EmergentResearchActivity.execute
        ⟨some ⟨[⟨"FetchResearchActivity", true, some [("papers", Val.list [Val.dict []])], "", Option.none⟩], []⟩, ""⟩
        (Except.ok Option.none)
        ⟨Except.error "boom", fun _ _ _ => Except.ok ⟨true, Option.none, Option.none⟩⟩
      = ActivityResult.error_result (some "boom"))
    ∧ (DailyThoughtActivity.execute ⟨some ⟨[], []⟩, ""⟩ (Except.ok Option.none)
        ⟨Except.error "boom", fun _ _ _ => Except.ok ⟨true, Option.none, Option.none⟩⟩
      = ActivityResult.error_result (some "boom"))
    ∧ (FetchResearchActivity.execute ⟨Option.none, ""⟩ (Except.error "boom")
        ⟨Except.ok true, fun _ _ _ => Except.ok ⟨true, Option.none, Option.none⟩⟩
        ⟨fun _ _ => Except.ok []⟩
      = ActivityResult.error_result (some "boom")) :=
  ⟨C2_boundary_catch.1 _ _ _ _ rfl,
   C2_boundary_catch.2.1 _ _ _ _ rfl,
   C2_boundary_catch.2.2 _ _ _ _ _ rfl⟩

/-- C3 counterexample: DailyThoughtActivity does not read the stored
insight through the memory hand-off key "emergent_insights". With
`{content:"X"}` stored under that key (retrievable via
`retrieve_data`) but no EmergentResearchActivity record in the
history, the activity uses the generic fallback and tags
inspired_by="exploration", contradicting the claimed
inspired_by="emergent_insights". -/
theorem C3_counterexample :
    (Memory.retrieve_data ⟨[], [("emergent_insights", Val.dict [("content", Val.str "X")])]⟩
        "emergent_insights" = some (Val.dict [("content", Val.str "X")]))
    ∧ lookupKey "inspired_by"
        (DailyThoughtActivity.execute
          ⟨some ⟨[], [("emergent_insights", Val.dict [("content", Val.str "X")])]⟩, ""⟩
          (Except.ok Option.none)
          ⟨Except.ok true, fun _ _ _ =>
            Except.ok ⟨true, some ⟨"T", "m", "stop"⟩, Option.none⟩⟩).metadata
        = some (Val.str "exploration")
    ∧ "exploration" ≠ "emergent_insights" :=
  ⟨rfl, rfl, by decide⟩

/-- C3 (amended): the reflection activity obtains the insight not from
the key/value slot but from the activity history: if the 10 most
recent records contain a successful EmergentResearchActivity record
whose data holds a non-empty insight string X (and the chat skill
initializes and completes successfully), the generated prompt embeds X
and the result's metadata has inspired_by="emergent_insights"; if no
such record exists, the generic fallback prompt is used and the
metadata has inspired_by="exploration". -/
theorem C3_insights_from_history (m : Memory) (gb : Except String (Option Memory))
    (chat : ChatSkill) (t : String) (X : String) (d : ChatData)
    (hinit : chat.initResult = .ok true)
    (hcomp : ∀ p sp mt, chat.get_chat_completion p sp mt
      = .ok ⟨true, some d, Option.none⟩) :
    (X ≠ "" →
      DailyThoughtActivity.findInsights (m.get_recent_activities 10)
          = some (Val.str X) →
        DailyThoughtActivity.promptFor (some (Val.str X))
            = "Drawing inspiration from recent research insights:\n" ++ X
              ++ "\n\nGenerate a thought-provoking reflection that explores the unknowns and possibilities suggested by these patterns. Focus on novel angles and unexplored implications."
          ∧ lookupKey "inspired_by"
              (DailyThoughtActivity.execute ⟨some m, t⟩ gb chat).metadata
            = some (Val.str "emergent_insights"))
    ∧ (DailyThoughtActivity.findInsights (m.get_recent_activities 10) = Option.none →
        DailyThoughtActivity.promptFor Option.none = DailyThoughtActivity.genericPrompt
          ∧ lookupKey "inspired_by"
              (DailyThoughtActivity.execute ⟨some m, t⟩ gb chat).metadata
            = some (Val.str "exploration")) := by
  constructor
  · intro hX hfind
    have hfalsy : pyFalsy (Val.str X) = false := by
      simp [pyFalsy, hX]
    constructor
    · simp [DailyThoughtActivity.promptFor, hfalsy,
        DailyThoughtActivity.insightPrompt, pyStr]
    · unfold DailyThoughtActivity.execute DailyThoughtActivity.executeBody
      simp only [hfind, hinit, hcomp, DailyThoughtActivity.insightsTruthy, hfalsy]
      simp [ActivityResult.success_result, lookupKey, hfind, hfalsy]
  · intro hfind
    constructor
    · rfl
    · unfold DailyThoughtActivity.execute DailyThoughtActivity.executeBody
      simp only [hfind, hinit, hcomp, DailyThoughtActivity.insightsTruthy]
      simp [ActivityResult.success_result, lookupKey, hfind]

/-- Witness for C3: a concrete memory holding an insight record "X", a
concrete chat oracle, and the empty memory for the fallback case. -/
theorem C3_insights_from_history_witness :
    (DailyThoughtActivity.promptFor (some (Val.str "X"))
        = "Drawing inspiration from recent research insights:\n" ++ "X"
          ++ "\n\nGenerate a thought-provoking reflection that explores the unknowns and possibilities suggested by these patterns. Focus on novel angles and unexplored implications."
      ∧ lookupKey "inspired_by"
          (DailyThoughtActivity.execute
            ⟨some ⟨[⟨"EmergentResearchActivity", true, some [("insights", Val.str "X")], "", Option.none⟩], []⟩, ""⟩
            (Except.ok Option.none)
            ⟨Except.ok true, fun _ _ _ =>
              Except.ok ⟨true, some ⟨"T", "m", "stop"⟩, Option.none⟩⟩).metadata
        = some (Val.str "emergent_insights"))
    ∧ (DailyThoughtActivity.promptFor Option.none = DailyThoughtActivity.genericPrompt
      ∧ lookupKey "inspired_by"
          (DailyThoughtActivity.execute ⟨some ⟨[], []⟩, ""⟩ (Except.ok Option.none)
            ⟨Except.ok true, fun _ _ _ =>
              Except.ok ⟨true, some ⟨"T", "m", "stop"⟩, Option.none⟩⟩).metadata
        = some (Val.str "exploration")) :=
  ⟨(C3_insights_from_history
      ⟨[⟨"EmergentResearchActivity", true, some [("insights", Val.str "X")], "", Option.none⟩], []⟩
      (Except.ok Option.none)
      ⟨Except.ok true, fun _ _ _ => Except.ok ⟨true, some ⟨"T", "m", "stop"⟩, Option.none⟩⟩
      "" "X" ⟨"T", "m", "stop"⟩ rfl (fun _ _ _ => rfl)).1 (by decide) rfl,
   (C3_insights_from_history ⟨[], []⟩ (Except.ok Option.none)
      ⟨Except.ok true, fun _ _ _ => Except.ok ⟨true, some ⟨"T", "m", "stop"⟩, Option.none⟩⟩
      "" "X" ⟨"T", "m", "stop"⟩ rfl (fun _ _ _ => rfl)).2 rfl⟩

/-- C5 counterexample: when the shared context supplies no memory
reference, EmergentResearchActivity does not fail — it reaches into the
process-wide global being's memory and proceeds, here completing with
success=true on research data found only in that global memory. -/
theorem C5_counterexample :
    (EmergentResearchActivity.execute ⟨Option.none, ""⟩
        (Except.ok (some ⟨[⟨"FetchResearchActivity", true,
          some [("papers", Val.list [Val.dict [("title", Val.str "P")]])], "", Option.none⟩], []⟩))
        ⟨Except.ok true, fun _ _ _ =>
          Except.ok ⟨true, some ⟨"insight", "m", "stop"⟩, Option.none⟩⟩).success
      = true :=
  rfl

/-- C5 (amended): when the shared context supplies no memory
reference, each activity falls back to the process-wide global being's
memory and proceeds exactly as if that memory had been supplied;
FetchResearchActivity returns the "No memory reference available"
failure only when the global memory is itself unavailable. -/
theorem C5_global_fallback :
    (∀ (t : String) (g : Memory) (gb : Except String (Option Memory)) (chat : ChatSkill),
      gb = Except.ok (some g) →
        EmergentResearchActivity.execute ⟨Option.none, t⟩ gb chat
          = EmergentResearchActivity.execute ⟨some g, t⟩ gb chat)
    ∧ (∀ (t : String) (g : Memory) (gb : Except String (Option Memory)) (chat : ChatSkill),
      gb = Except.ok (some g) →
        DailyThoughtActivity.execute ⟨Option.none, t⟩ gb chat
          = DailyThoughtActivity.execute ⟨some g, t⟩ gb chat)
    ∧ (∀ (t : String) (g : Memory) (gb : Except String (Option Memory)) (chat : ChatSkill)
        (client : ArxivClient),
      gb = Except.ok (some g) →
        FetchResearchActivity.execute ⟨Option.none, t⟩ gb chat client
          = FetchResearchActivity.execute ⟨some g, t⟩ gb chat client)
    ∧ (∀ (t : String) (gb : Except String (Option Memory)) (chat : ChatSkill)
        (client : ArxivClient),
      gb = Except.ok Option.none →
        FetchResearchActivity.execute ⟨Option.none, t⟩ gb chat client
          = ActivityResult.error_result (some "No memory reference available")) := by
  refine ⟨?_, ?_, ?_, ?_⟩
  · intro t g gb chat h; subst h; rfl
  · intro t g gb chat h; subst h; rfl
  · intro t g gb chat client h; subst h; rfl
  · intro t gb chat client h; subst h; rfl

/-- Witness for C5: the fallback equivalences and the missing-global
failure evaluated at concrete inputs. -/
theorem C5_global_fallback_witness :
    (EmergentResearchActivity.execute ⟨Option.none, ""⟩ (Except.ok (some ⟨[], []⟩))
        ⟨Except.ok true, fun _ _ _ => Except.ok ⟨true, Option.none, Option.none⟩⟩
      = EmergentResearchActivity.execute ⟨some ⟨[], []⟩, ""⟩ (Except.ok (some ⟨[], []⟩))
        ⟨Except.ok true, fun _ _ _ => Except.ok ⟨true, Option.none, Option.none⟩⟩)
    ∧ (DailyThoughtActivity.execute ⟨Option.none, ""⟩ (Except.ok (some ⟨[], []⟩))
        ⟨Except.ok true, fun _ _ _ => Except.ok ⟨true, Option.none, Option.none⟩⟩
      = DailyThoughtActivity.execute ⟨some ⟨[], []⟩, ""⟩ (Except.ok (some ⟨[], []⟩))
        ⟨Except.ok true, fun _ _ _ => Except.ok ⟨true, Option.none, Option.none⟩⟩)
    ∧ (FetchResearchActivity.execute ⟨Option.none, ""⟩ (Except.ok (some ⟨[], []⟩))
        ⟨Except.ok true, fun _ _ _ => Except.ok ⟨true, Option.none, Option.none⟩⟩
        ⟨fun _ _ => Except.ok []⟩
      = FetchResearchActivity.execute ⟨some ⟨[], []⟩, ""⟩ (Except.ok (some ⟨[], []⟩))
        ⟨Except.ok true, fun _ _ _ => Except.ok ⟨true, Option.none, Option.none⟩⟩
        ⟨fun _ _ => Except.ok []⟩)
    ∧ (FetchResearchActivity.execute ⟨Option.none, ""⟩ (Except.ok Option.none)
        ⟨Except.ok true, fun _ _ _ => Except.ok ⟨true, Option.none, Option.none⟩⟩
        ⟨fun _ _ => Except.ok []⟩
      = ActivityResult.error_result (some "No memory reference available")) :=
  ⟨C5_global_fallback.1 "" ⟨[], []⟩ _ _ rfl,
   C5_global_fallback.2.1 "" ⟨[], []⟩ _ _ rfl,
   C5_global_fallback.2.2.1 "" ⟨[], []⟩ _ _ _ rfl,
   C5_global_fallback.2.2.2 "" _ _ _ rfl⟩

/-- The applied operation never changes the budget's maximum. -/
lemma applyOp_max (b : EnergyBudget) (op : EnergyOp) :
    (applyOp b op).max = b.max := by
  cases op with
  | charge cost =>
    unfold applyOp EnergyBudget.charge
    by_cases h : EnergyBudget.eligible b cost <;> simp [h]
  | regen amount => rfl

/-- The applied operation keeps the budget non-negative: an applied
charge was eligible, so the deduction stays at or above zero, and
regeneration adds a non-negative amount clamped to a non-negative
maximum. -/
lemma applyOp_nonneg (b : EnergyBudget) (op : EnergyOp)
    (hb : 0 ≤ b.current) (hm : 0 ≤ b.max) (hop : regenNonneg op) :
    0 ≤ (applyOp b op).current := by
  cases op with
  | charge cost =>
    unfold applyOp EnergyBudget.charge
    by_cases h : EnergyBudget.eligible b cost
    · simp only [h, if_true]
      have : cost ≤ b.current := by
        simpa [EnergyBudget.eligible, decide_eq_true_eq] using h
      simpa using sub_nonneg.mpr this
    · simp only [h, if_false]
      exact hb
  | regen amount =>
    unfold applyOp EnergyBudget.regen
    have ha : 0 ≤ amount := hop
    exact le_min (add_nonneg hb ha) hm

/-- C4: After any sequence of operations in which a charge is applied
only when the activity is eligible at charge time (ineligible charges
being rejected) and regeneration amounts are non-negative, the energy
budget never becomes negative; moreover a charge whose cost exceeds
the current budget is rejected (`none`, the InsufficientEnergy
outcome) and leaves the budget unchanged rather than clamping it. -/
theorem C4_energy_never_negative :
    (∀ (ops : List EnergyOp) (b : EnergyBudget),
      0 ≤ b.current → 0 ≤ b.max → (∀ op ∈ ops, regenNonneg op) →
        0 ≤ (applyOps b ops).current)
    ∧ (∀ (b : EnergyBudget) (cost : ℚ), b.current < cost →
        b.charge cost = Option.none ∧ applyOp b (.charge cost) = b) := by
  constructor
  · intro ops
    induction ops with
    | nil => intro b hb hm hops; exact hb
    | cons op rest ih =>
      intro b hb hm hops
      have hop : regenNonneg op := hops op (List.mem_cons_self op rest)
      have hrest : ∀ o ∈ rest, regenNonneg o :=
        fun o ho => hops o (List.mem_cons_of_mem op ho)
      have h1 : 0 ≤ (applyOp b op).current := applyOp_nonneg b op hb hm hop
      have h2 : 0 ≤ (applyOp b op).max := applyOp_max b op ▸ hm
      exact ih (applyOp b op) h1 h2 hrest
  · intro b cost h
    have hne : EnergyBudget.eligible b cost = false := by
      simp [EnergyBudget.eligible, not_le.mpr h]
    constructor
    · simp [EnergyBudget.charge, hne]
    · simp [applyOp, EnergyBudget.charge, hne]

/-- Witness for C4: a concrete budget `{current:1, max:1}` run through
two eligible charges of 0.5 and a regeneration of 0.3 stays
non-negative, and a 0.5-cost charge against a 0.25 budget is
rejected unchanged. -/
theorem C4_energy_never_negative_witness :
    (0 ≤ (applyOps ⟨1, 1⟩
      [EnergyOp.charge (1/2), EnergyOp.charge (1/2), EnergyOp.regen (3/10)]).current)
    ∧ (EnergyBudget.charge ⟨1/4, 1⟩ (1/2) = Option.none
      ∧ applyOp ⟨1/4, 1⟩ (EnergyOp.charge (1/2)) = ⟨1/4, 1⟩) :=
  ⟨C4_energy_never_negative.1 _ ⟨1, 1⟩ (by norm_num) (by norm_num)
      (by intro op h
          simp only [List.mem_cons, List.not_mem_nil, or_false] at h
          rcases h with rfl | rfl | rfl
          · trivial
          · trivial
          · show (0 : ℚ) ≤ 3/10
            norm_num),
   C4_energy_never_negative.2 ⟨1/4, 1⟩ (1/2) (by norm_num)⟩

/-- C7: every call to the web search skill's search operation returns
a success/data/error dictionary; before a successful initialize
(`_initialized` false, as in the constructor state) it returns
success=false with a non-empty error and data=None without raising;
when initialized, a successful client call yields success=true with
data holding the retrieved context and the used configuration, and a
client exception yields success=false with its message. -/
theorem C7_search_contract :
    (∀ (st : WebSearchState) (client : TavilyClientOracle) (q : String)
        (sd tp tr : Option String) (mt : Option Nat),
      st.inited = false →
        WebSearchSkill.search st client q sd tp tr mt
            = ⟨false, Option.none, some "Web search skill not initialized"⟩
          ∧ "Web search skill not initialized" ≠ "")
    ∧ (initialWebSearchState.inited = false)
    ∧ (∀ (st : WebSearchState) (client : TavilyClientOracle) (q : String)
        (sd tp tr : Option String) (mt : Option Nat) (context : String),
      st.inited = true →
        client.get_search_context q (pyOrStr sd st.search_depth)
            (pyOrStr tp st.default_topic) tr (pyOrNat mt st.default_max_tokens)
          = .ok context →
        WebSearchSkill.search st client q sd tp tr mt
          = ⟨true,
             some [("query", .str q),
                   ("context", .str context),
                   ("used_config", .dict
                     [("search_depth", .str (pyOrStr sd st.search_depth)),
                      ("topic", .str (pyOrStr tp st.default_topic)),
                      ("max_tokens", .nat (pyOrNat mt st.default_max_tokens))])],
             Option.none⟩)
    ∧ (∀ (st : WebSearchState) (client : TavilyClientOracle) (q : String)
        (sd tp tr : Option String) (mt : Option Nat) (e : String),
      st.inited = true →
        client.get_search_context q (pyOrStr sd st.search_depth)
            (pyOrStr tp st.default_topic) tr (pyOrNat mt st.default_max_tokens)
          = .error e →
        WebSearchSkill.search st client q sd tp tr mt
          = ⟨false, Option.none, some e⟩) := by
  refine ⟨?_, rfl, ?_, ?_⟩
  · intro st client q sd tp tr mt h
    refine ⟨?_, by decide⟩
    unfold WebSearchSkill.search
    simp [h]
  · intro st client q sd tp tr mt context h hc
    unfold WebSearchSkill.search
    simp [h, hc]
  · intro st client q sd tp tr mt e h hc
    unfold WebSearchSkill.search
    simp [h, hc]

/-- Witness for C7: the constructor state rejects a search, and an
initialized state with a concrete client succeeds and fails as the
client does. -/
theorem C7_search_contract_witness :
    (WebSearchSkill.search initialWebSearchState
        ⟨fun _ _ _ _ _ => Except.ok "ctx"⟩ "q" Option.none Option.none Option.none Option.none
      = ⟨false, Option.none, some "Web search skill not initialized"⟩)
    ∧ (WebSearchSkill.search ⟨true, "basic", "general", 8000⟩
        ⟨fun _ _ _ _ _ => Except.ok "ctx"⟩ "q" Option.none Option.none Option.none Option.none
      = ⟨true,
         some [("query", .str "q"),
               ("context", .str "ctx"),
               ("used_config", .dict
                 [("search_depth", .str "basic"),
                  ("topic", .str "general"),
                  ("max_tokens", .nat 8000)])],
         Option.none⟩)
    ∧ (WebSearchSkill.search ⟨true, "basic", "general", 8000⟩
        ⟨fun _ _ _ _ _ => Except.error "tavily down"⟩ "q"
        Option.none Option.none Option.none Option.none
      = ⟨false, Option.none, some "tavily down"⟩) :=
  ⟨(C7_search_contract.1 initialWebSearchState ⟨fun _ _ _ _ _ => Except.ok "ctx"⟩
      "q" Option.none Option.none Option.none Option.none rfl).1,
   C7_search_contract.2.2.1 ⟨true, "basic", "general", 8000⟩
      ⟨fun _ _ _ _ _ => Except.ok "ctx"⟩ "q"
      Option.none Option.none Option.none Option.none "ctx" rfl rfl,
   C7_search_contract.2.2.2 ⟨true, "basic", "general", 8000⟩
      ⟨fun _ _ _ _ _ => Except.error "tavily down"⟩ "q"
      Option.none Option.none Option.none Option.none "tavily down" rfl rfl⟩

/-- C8: provided the external arXiv client honours the `max_results`
bound it is given (its documented contract), `search_papers` returns a
list of at most `max_results` paper records, each containing exactly
the fields title, authors, summary, published, updated, doi,
primary_category, categories, links and pdf_url, in that order. -/
theorem C8_paper_fields (client : ArxivClient) (q : String) (mr : Nat)
    (cat : Option String)
    (hclient : ∀ ps, client.results (ArxivSkill.fullQuery q cat) mr = .ok ps →
      ps.length ≤ mr) :
    (ArxivSkill.search_papers client q mr cat).length ≤ mr
    ∧ ∀ r ∈ ArxivSkill.search_papers client q mr cat,
        r.map Prod.fst
          = ["title", "authors", "summary", "published", "updated", "doi",
             "primary_category", "categories", "links", "pdf_url"] := by
  unfold ArxivSkill.search_papers
  cases h : client.results (ArxivSkill.fullQuery q cat) mr with
  | error e =>
    refine ⟨Nat.zero_le mr, ?_⟩
    intro r hr
    simp at hr
  | ok ps =>
    constructor
    · simpa using hclient ps h
    · intro r hr
      simp only [List.mem_map] at hr
      obtain ⟨p, _, rfl⟩ := hr
      rfl

/-- Witness for C8: a concrete client returning one paper under a
bound of one. -/
theorem C8_paper_fields_witness :
    (ArxivSkill.search_papers ⟨fun _ _ => Except.ok [{ title := "P" }]⟩
        "q" 1 (some "cs.AI")).length ≤ 1
    ∧ ∀ r ∈ ArxivSkill.search_papers ⟨fun _ _ => Except.ok [{ title := "P" }]⟩
        "q" 1 (some "cs.AI"),
        r.map Prod.fst
          = ["title", "authors", "summary", "published", "updated", "doi",
             "primary_category", "categories", "links", "pdf_url"] :=
  C8_paper_fields ⟨fun _ _ => Except.ok [{ title := "P" }]⟩ "q" 1 (some "cs.AI")
    (by intro ps h
        cases h
        decide)

/-- C9: for every input and every behaviour of the external arXiv
client, `search_papers` is a total function into lists of paper
records (so callers always receive a list), and when the underlying
client raises, the operation returns the empty list. -/
theorem C9_no_raise_empty (client : ArxivClient) (q : String) (mr : Nat)
    (cat : Option String) (e : String)
    (h : client.results (ArxivSkill.fullQuery q cat) mr = .error e) :
    ArxivSkill.search_papers client q mr cat = [] := by
  unfold ArxivSkill.search_papers
  simp [h]

/-- Witness for C9: a concrete client that raises yields the empty
list. -/
theorem C9_no_raise_empty_witness :
    ArxivSkill.search_papers ⟨fun _ _ => Except.error "network down"⟩
      "q" 5 Option.none = [] :=
  C9_no_raise_empty ⟨fun _ _ => Except.error "network down"⟩ "q" 5 Option.none
    "network down" rfl

/-- C10 counterexample: a recent successful DailyThoughtActivity
record exists (with an empty-string thought), the chat skill
initializes and would complete successfully, and no exception occurs —
yet `generate_arxiv_query` returns the default query instead of the
stripped chat-completion content, because the empty thought is falsy
and triggers the no-thought fallback before any completion is
requested. -/
theorem C10_counterexample :
    (FetchResearchActivity.generate_arxiv_query
        ⟨[⟨"DailyThoughtActivity", true, some [("thought", Val.str "")], "", Option.none⟩], []⟩
        ⟨Except.ok true, fun _ _ _ =>
          Except.ok ⟨true, some ⟨" quantum computing ", "m", "stop"⟩, Option.none⟩⟩
      = "artificial intelligence OR machine learning OR neural networks")
    ∧ "artificial intelligence OR machine learning OR neural networks"
        ≠ pyStrip " quantum computing " :=
  ⟨rfl, by decide⟩

/-- C10 (amended): `generate_arxiv_query` always returns a query
string; it returns the default query
"artificial intelligence OR machine learning OR neural networks" on
chat-skill initialization failure (returning false or raising), on
absence of any recent successful DailyThoughtActivity record carrying
a truthy (non-empty) thought, on chat-completion failure or exception;
otherwise it returns the stripped chat-completion content. -/
theorem C10_query_fallbacks :
    (∀ (m : Memory) (chat : ChatSkill) (e : String),
      chat.initResult = .error e →
        FetchResearchActivity.generate_arxiv_query m chat
          = FetchResearchActivity.default_query)
    ∧ (∀ (m : Memory) (chat : ChatSkill),
      chat.initResult = .ok false →
        FetchResearchActivity.generate_arxiv_query m chat
          = FetchResearchActivity.default_query)
    ∧ (∀ (m : Memory) (chat : ChatSkill),
      chat.initResult = .ok true →
        FetchResearchActivity.findThought (m.get_recent_activities 5) = Option.none →
        FetchResearchActivity.generate_arxiv_query m chat
          = FetchResearchActivity.default_query)
    ∧ (∀ (m : Memory) (chat : ChatSkill) (v : Val),
      chat.initResult = .ok true →
        FetchResearchActivity.findThought (m.get_recent_activities 5) = some v →
        pyFalsy v = true →
        FetchResearchActivity.generate_arxiv_query m chat
          = FetchResearchActivity.default_query)
    ∧ (∀ (m : Memory) (chat : ChatSkill) (v : Val) (e : String),
      chat.initResult = .ok true →
        FetchResearchActivity.findThought (m.get_recent_activities 5) = some v →
        pyFalsy v = false →
        chat.get_chat_completion (FetchResearchActivity.queryPrompt v)
            FetchResearchActivity.system_prompt 100 = .error e →
        FetchResearchActivity.generate_arxiv_query m chat
          = FetchResearchActivity.default_query)
    ∧ (∀ (m : Memory) (chat : ChatSkill) (v : Val) (r : ChatCompletion),
      chat.initResult = .ok true →
        FetchResearchActivity.findThought (m.get_recent_activities 5) = some v →
        pyFalsy v = false →
        chat.get_chat_completion (FetchResearchActivity.queryPrompt v)
            FetchResearchActivity.system_prompt 100 = .ok r →
        r.success = false →
        FetchResearchActivity.generate_arxiv_query m chat
          = FetchResearchActivity.default_query)
    ∧ (∀ (m : Memory) (chat : ChatSkill) (v : Val) (d : ChatData) (err : Option String),
      chat.initResult = .ok true →
        FetchResearchActivity.findThought (m.get_recent_activities 5) = some v →
        pyFalsy v = false →
        chat.get_chat_completion (FetchResearchActivity.queryPrompt v)
            FetchResearchActivity.system_prompt 100 = .ok ⟨true, some d, err⟩ →
        FetchResearchActivity.generate_arxiv_query m chat = pyStrip d.content) := by
  refine ⟨?_, ?_, ?_, ?_, ?_, ?_, ?_⟩
  · intro m chat e hinit
    unfold FetchResearchActivity.generate_arxiv_query
      FetchResearchActivity.generateArxivQueryBody
    simp [hinit, pure, Except.pure, bind, Except.bind]
  · intro m chat hinit
    unfold FetchResearchActivity.generate_arxiv_query
      FetchResearchActivity.generateArxivQueryBody
    simp [hinit, pure, Except.pure, bind, Except.bind]
  · intro m chat hinit hfind
    unfold FetchResearchActivity.generate_arxiv_query
      FetchResearchActivity.generateArxivQueryBody
    simp [hinit, hfind, pure, Except.pure, bind, Except.bind]
  · intro m chat v hinit hfind hfalsy
    unfold FetchResearchActivity.generate_arxiv_query
      FetchResearchActivity.generateArxivQueryBody
    simp [hinit, hfind, hfalsy, pure, Except.pure, bind, Except.bind]
  · intro m chat v e hinit hfind hfalsy hcomp
    unfold FetchResearchActivity.generate_arxiv_query
      FetchResearchActivity.generateArxivQueryBody
    simp [hinit, hfind, hfalsy, hcomp, pure, Except.pure, bind, Except.bind]
  · intro m chat v r hinit hfind hfalsy hcomp hfail
    unfold FetchResearchActivity.generate_arxiv_query
      FetchResearchActivity.generateArxivQueryBody
    simp [hinit, hfind, hfalsy, hcomp, hfail, pure, Except.pure, bind, Except.bind]
  · intro m chat v d err hinit hfind hfalsy hcomp
    unfold FetchResearchActivity.generate_arxiv_query
      FetchResearchActivity.generateArxivQueryBody
    simp [hinit, hfind, hfalsy, hcomp, pure, Except.pure, bind, Except.bind]

/-- Witness for C10: each fallback case and the success case evaluated
at concrete inputs (the success case yields the stripped completion
content "quantum computing"). -/
theorem C10_query_fallbacks_witness :
    (FetchResearchActivity.generate_arxiv_query ⟨[], []⟩
        ⟨Except.error "boom", fun _ _ _ => Except.ok ⟨true, Option.none, Option.none⟩⟩
      = FetchResearchActivity.default_query)
    ∧ (FetchResearchActivity.generate_arxiv_query ⟨[], []⟩
        ⟨Except.ok false, fun _ _ _ => Except.ok ⟨true, Option.none, Option.none⟩⟩
      = FetchResearchActivity.default_query)
    ∧ (FetchResearchActivity.generate_arxiv_query ⟨[], []⟩
        ⟨Except.ok true, fun _ _ _ => Except.ok ⟨true, Option.none, Option.none⟩⟩
      = FetchResearchActivity.default_query)
    ∧ (FetchResearchActivity.generate_arxiv_query
        ⟨[⟨"DailyThoughtActivity", true, some [("thought", Val.str "")], "", Option.none⟩], []⟩
        ⟨Except.ok true, fun _ _ _ => Except.ok ⟨true, Option.none, Option.none⟩⟩
      = FetchResearchActivity.default_query)
    ∧ (FetchResearchActivity.generate_arxiv_query
        ⟨[⟨"DailyThoughtActivity", true, some [("thought", Val.str "t")], "", Option.none⟩], []⟩
        ⟨Except.ok true, fun _ _ _ => Except.error "boom"⟩
      = FetchResearchActivity.default_query)
    ∧ (FetchResearchActivity.generate_arxiv_query
        ⟨[⟨"DailyThoughtActivity", true, some [("thought", Val.str "t")], "", Option.none⟩], []⟩
        ⟨Except.ok true, fun _ _ _ => Except.ok ⟨false, Option.none, some "api error"⟩⟩
      = FetchResearchActivity.default_query)
    ∧ (FetchResearchActivity.generate_arxiv_query
        ⟨[⟨"DailyThoughtActivity", true, some [("thought", Val.str "t")], "", Option.none⟩], []⟩
        ⟨Except.ok true, fun _ _ _ =>
          Except.ok ⟨true, some ⟨" quantum computing ", "m", "stop"⟩, Option.none⟩⟩
      = pyStrip " quantum computing ") :=
  ⟨C10_query_fallbacks.1 _ _ "boom" rfl,
   C10_query_fallbacks.2.1 _ _ rfl,
   C10_query_fallbacks.2.2.1 _ _ rfl rfl,
   C10_query_fallbacks.2.2.2.1 _ _ (Val.str "") rfl rfl rfl,
   C10_query_fallbacks.2.2.2.2.1 _ _ (Val.str "t") "boom" rfl rfl rfl rfl,
   C10_query_fallbacks.2.2.2.2.2.1 _ _ (Val.str "t")
     ⟨false, Option.none, some "api error"⟩ rfl rfl rfl rfl rfl,
   C10_query_fallbacks.2.2.2.2.2.2 _ _ (Val.str "t")
     ⟨" quantum computing ", "m", "stop"⟩ Option.none rfl rfl rfl rfl⟩
